import Mathlib

/-!
Verification of the FlagFlow investigation orchestration core.

The definitions below are a shallow embedding of the TypeScript source:
* `src/web/src/app/api/investigate-context/route.ts` (dispatch policy and
  SSE event cascade for a context-driven investigation),
* `src/web/src/app/api/investigate/route.ts` (SSE event cascade for a
  transaction-driven investigation),
* `src/web/src/utils/ai.ts` (question generation with deterministic fallback),
* `src/web/src/app/api/follow-up/route.ts` (session creation endpoint).

Machine-level side effects (timers, HTTP) are modelled explicitly: each
`setTimeout` enqueue is a `(fireTime, event)` pair, and the delivered event
stream is the list of events ordered by fire time, exactly as the single
Node.js timer queue delivers them.  JSON payloads constructed by the code's
object literals are embedded as association lists of keys to `JVal` values,
so the presence or absence of a field in an emitted event is faithfully
represented.
-/

namespace FlagFlow

/-- Substring test on character lists: `infixOf n h` is true iff `n` occurs
contiguously inside `h`.  This models JavaScript `RegExp.test` for the
dispatch regexes, which are plain alternations of literal strings. -/
def infixOf (n : List Char) : List Char → Bool
  | [] => n.isEmpty
  | c :: rest => n.isPrefixOf (c :: rest) || infixOf n rest

/-- `strContains hay needle` : does `needle` occur in `hay`? -/
def strContains (hay needle : String) : Bool :=
  infixOf needle.data hay.data

/-- Case normalization, modelling JavaScript `toLowerCase()` on the ASCII
texts involved (character-wise lowering). -/
def strToLower (s : String) : String := String.mk (s.data.map Char.toLower)

/-- `matchesAny text keys` models `/(k1|k2|...)/.test(text)` for literal
alternatives `keys`. -/
def matchesAny (text : String) (keys : List String) : Bool :=
  keys.any (fun k => strContains text k)

/-- The four specialist kinds dispatched by the orchestration routes
(`osint` = entity-research, `geo` = geographic-routing,
`pattern` = transaction-pattern, `chain` = chain-tracing). -/
inductive Kind where
  | osint
  | geo
  | pattern
  | chain
deriving DecidableEq, Repr

/-- Lexical signal group for entity research, from
`/(entity|company|beneficiary|owner|shell)/` in investigate-context. -/
def osintKeys : List String := ["entity", "company", "beneficiary", "owner", "shell"]

/-- Lexical signal group for geographic routing, from
`/(jurisdiction|country|offshore|geograph|route|corridor|cyprus)/`. -/
def geoKeys : List String :=
  ["jurisdiction", "country", "offshore", "geograph", "route", "corridor", "cyprus"]

/-- Lexical signal group for transaction patterns, from
`/(pattern|structur|typical|unusual|threshold|split|multiple)/`. -/
def patternKeys : List String :=
  ["pattern", "structur", "typical", "unusual", "threshold", "split", "multiple"]

/-- Lexical signal group for chain tracing, from
`/(btc|eth|usdt|wallet|address|tx|hash|exchange|crypto|chain|bridge|mixer|bc1|0x)/`. -/
def chainKeys : List String :=
  ["btc", "eth", "usdt", "wallet", "address", "tx", "hash", "exchange",
   "crypto", "chain", "bridge", "mixer", "bc1", "0x"]

/-- The session text on which dispatch is decided:
`[query.toLowerCase(), ...answers.map(a => a.toLowerCase())].join(' ')`. -/
def sessionText (query : String) (answers : List String) : String :=
  String.intercalate " " (strToLower query :: answers.map strToLower)

/-- `wantOsint` flag of the investigate-context route. -/
def wantOsint (text : String) : Bool := matchesAny text osintKeys

/-- `wantGeo` flag of the investigate-context route. -/
def wantGeo (text : String) : Bool := matchesAny text geoKeys

/-- `wantPattern` flag of the investigate-context route. -/
def wantPattern (text : String) : Bool := matchesAny text patternKeys

/-- `wantChain` flag of the investigate-context route. -/
def wantChain (text : String) : Bool := matchesAny text chainKeys

/-- The dispatch decision: the set (as a duplicate-free list in the code's
fixed test order) of specialist kinds whose signal group matches the session
text.  There is no other source of selection in the route. -/
def decide (text : String) : List Kind :=
  (if wantOsint text then [Kind.osint] else [])
    ++ (if wantGeo text then [Kind.geo] else [])
    ++ (if wantPattern text then [Kind.pattern] else [])
    ++ (if wantChain text then [Kind.chain] else [])

/-- A JSON value occurring in the event payloads the routes construct:
a string, an array of strings, or a number.  (The code's object literals
only contain strings and string arrays; `num` exists so that the presence
of a numeric field — e.g. a sequence number — is expressible.) -/
inductive JVal where
  | s (v : String)
  | arr (vs : List String)
  | num (n : Nat)
deriving DecidableEq, Repr

/-- An emitted event is the association list of the fields of the object
literal passed to `send`, in source order. -/
abbrev Event := List (String × JVal)

/-- `send({ type: 'status', message })` payload. -/
def statusEvt (message : String) : Event :=
  [("type", JVal.s "status"), ("message", JVal.s message)]

/-- `send({ type: 'spawn_agent', agentType, parentId: 'orchestrator' })`. -/
def spawnEvt (agentType : String) : Event :=
  [("type", JVal.s "spawn_agent"), ("agentType", JVal.s agentType),
   ("parentId", JVal.s "orchestrator")]

/-- `send({ type: 'agent_update', agentId, status, findings })`. -/
def updEvt (agentId status : String) (findings : List String) : Event :=
  [("type", JVal.s "agent_update"), ("agentId", JVal.s agentId),
   ("status", JVal.s status), ("findings", JVal.arr findings)]

/-- `send({ type: 'agent_update', agentId, status, findings, riskLevel })`. -/
def updRiskEvt (agentId status : String) (findings : List String)
    (riskLevel : String) : Event :=
  [("type", JVal.s "agent_update"), ("agentId", JVal.s agentId),
   ("status", JVal.s status), ("findings", JVal.arr findings),
   ("riskLevel", JVal.s riskLevel)]

/-- The terminal completion event both routes enqueue right before
`controller.close()`. -/
def completeEvt : Event := statusEvt "Investigation complete"

/-- The agent type named by a `spawn_agent` event, if the event is one. -/
def spawnedType (e : Event) : Option String :=
  match e with
  | ("type", JVal.s "spawn_agent") :: ("agentType", JVal.s t) :: _ => some t
  | _ => none

/-- Is `e` a terminal event: the session-complete status event (the status
event whose message is the completion message, enqueued immediately before
`controller.close()`), or an error-typed event (which this code never
emits)? -/
def isTerminalEvt (e : Event) : Bool :=
  match e.lookup "type", e.lookup "message" with
  | some (JVal.s "error"), _ => true
  | some (JVal.s "status"), some (JVal.s m) => m == "Investigation complete"
  | _, _ => false

/-- Does the event carry any numeric-valued field (as a per-session
sequence number would have to be)? -/
def hasNumField (e : Event) : Bool :=
  e.any (fun kv => match kv.2 with | JVal.num _ => true | _ => false)

/-- The wire name of a specialist kind, as passed to `spawn`. -/
def Kind.agentType : Kind → String
  | Kind.osint => "osint"
  | Kind.geo => "geo"
  | Kind.pattern => "pattern"
  | Kind.chain => "chain"

/-- The timed event cascade of the investigate-context route, called at
time `t0`: each entry is `(fire time, event)` in delivery order.  The
route computes `delay = 500` and schedules every `setTimeout`
synchronously during `start`, so all fire times are offsets from the call
time; the list below is sorted by fire time (the Node timer queue's
delivery order).  Events scheduled under `if (want…)` appear iff the flag
holds; the three generic `agent_update`s and the final completion status are
unconditional. -/
def contextTimed (t0 : Nat) (query : String) (answers : List String) :
    List (Nat × Event) :=
  let text := sessionText query answers
  (t0, statusEvt ("Starting investigation: " ++ query))
    :: ((if wantOsint text then [(t0 + 500, spawnEvt "osint")] else [])
    ++ (if wantGeo text then [(t0 + 700, spawnEvt "geo")] else [])
    ++ (if wantPattern text then [(t0 + 900, spawnEvt "pattern")] else [])
    ++ (if wantChain text then [(t0 + 1100, spawnEvt "chain")] else [])
    ++ [(t0 + 1300, updEvt "osint" "collecting"
          ["Beneficiary cross-referenced with company registry"]),
        (t0 + 1700, updEvt "geo" "analyzing"
          ["Jurisdiction risk flagged by internal model"]),
        (t0 + 2100, updRiskEvt "pattern" "flagged"
          ["Transaction pattern deviates from baseline"] "elevated")]
    ++ (if wantChain text then
          [(t0 + 2300, updRiskEvt "chain" "tracing"
             ["Outbound to high-risk cluster via bridge"] "high")]
        else [])
    ++ [(t0 + 2500, completeEvt)])

/-- The delivered event stream of the investigate-context route (events
in delivery order, times dropped). -/
def contextEvents (query : String) (answers : List String) : List Event :=
  (contextTimed 0 query answers).map Prod.snd

/-- The agent types actually spawned (dispatched) in an event stream. -/
def spawnedKinds (es : List Event) : List String :=
  es.filterMap spawnedType

/-- Crypto-hint signal group of the investigate route, from
`/(btc|eth|usdt|address|wallet|tx|hash|exchange|crypto|chain|bridge|mixer|bc1|0x)/`. -/
def cryptoKeys : List String :=
  ["btc", "eth", "usdt", "address", "wallet", "tx", "hash", "exchange",
   "crypto", "chain", "bridge", "mixer", "bc1", "0x"]

/-- `JSON.stringify(transactions)` where each transaction is kept as its
already-serialized JSON text (the route only inspects the serialized
string). -/
def jsonStringifyArr (txs : List String) : String :=
  "[" ++ String.intercalate "," txs ++ "]"

/-- `cryptoHint` flag of the investigate route, tested on the lowercased
serialization of the transaction list. -/
def cryptoHint (txs : List String) : Bool :=
  matchesAny (strToLower (jsonStringifyArr txs)) cryptoKeys

/-- The timed event cascade of the investigate route called at time `t0`,
sorted by fire time.  Note the code schedules the pattern update at 2500
and the (conditional) chain update at 2300, so the chain update is
delivered before the pattern update. -/
def investigateTimed (t0 : Nat) (txs : List String) : List (Nat × Event) :=
  (t0, statusEvt ("Starting investigation on " ++ toString txs.length
        ++ " transactions"))
    :: ([(t0 + 500, spawnEvt "osint"), (t0 + 900, spawnEvt "geo"),
         (t0 + 1300, spawnEvt "pattern")]
    ++ (if cryptoHint txs then [(t0 + 1600, spawnEvt "chain")] else [])
    ++ [(t0 + 1700, updEvt "osint" "collecting"
          ["Entity mentions found in public records"]),
        (t0 + 2100, updEvt "geo" "analyzing"
          ["Route intersects high-risk corridor"])]
    ++ (if cryptoHint txs then
          [(t0 + 2300, updRiskEvt "chain" "tracing"
             ["Clustered with exchange deposit addresses"] "elevated")]
        else [])
    ++ [(t0 + 2500, updRiskEvt "pattern" "flagged"
          ["Structuring pattern detected across accounts"] "high"),
        (t0 + 3000, completeEvt)])

/-- The delivered event stream of the investigate route. -/
def investigateEvents (txs : List String) : List Event :=
  (investigateTimed 0 txs).map Prod.snd

/-- The response of an SSE route: either a 200 event stream or a non-200
rejection (the latter is never produced by either route body). -/
inductive SseResponse where
  | stream (events : List (Nat × Event))
  | reject (code : Nat)
deriving DecidableEq, Repr

/-- `const { transactions = [] } = await request.json().catch(() => ({ transactions: [] }))`:
an unparseable body yields the empty transaction list. -/
def parseTxBody : Except Unit (List String) → List String
  | Except.error _ => []
  | Except.ok txs => txs

/-- The investigate route `POST` handler: parse (with catch-default) and
return the SSE stream. -/
def investigatePOST (body : Except Unit (List String)) : SseResponse :=
  SseResponse.stream (investigateTimed 0 (parseTxBody body))

/-- The context extracted from an investigate-context request body. -/
structure Ctx where
  query : String
  answers : List String
deriving DecidableEq, Repr

/-- `const { context = {} } = await request.json().catch(() => ({ context: {} }))`
followed by `const { query = '', answers = [] } = context`: an unparseable
body yields the empty context. -/
def parseCtxBody : Except Unit Ctx → Ctx
  | Except.error _ => ⟨"", []⟩
  | Except.ok c => c

/-- The investigate-context route `POST` handler. -/
def investigateContextPOST (body : Except Unit Ctx) : SseResponse :=
  SseResponse.stream
    (contextTimed 0 (parseCtxBody body).query (parseCtxBody body).answers)

/-! ### Question generation (`src/web/src/utils/ai.ts`) -/

/-- `SimpleQuestion` from `ai.ts`. -/
structure SimpleQuestion where
  question : String
  options : List String
deriving DecidableEq, Repr

/-- The observable outcome of one attempted call to the dynamic Gemini
generator, as seen by `generateDynamicAMLQuestions`: the client may be
unconfigured (`genAI === null`), the model call may throw, the reply may
contain no JSON array, `JSON.parse` may throw, or an array of questions
may be parsed. -/
inductive GenOutcome where
  | unavailable
  | threw
  | noJsonMatch
  | parseFailed
  | parsed (qs : List SimpleQuestion)

/-- `generateDynamicAMLQuestions`: returns `null` when the client is
missing, the reply has no array, parsing fails, or the parsed value is not
exactly 4 questions of 4 options each; propagates an exception of the
model call (`Except.error`); otherwise returns the validated list. -/
def generateDynamicAMLQuestions (o : GenOutcome) :
    Except Unit (Option (List SimpleQuestion)) :=
  match o with
  | GenOutcome.unavailable => Except.ok none
  | GenOutcome.threw => Except.error ()
  | GenOutcome.noJsonMatch => Except.ok none
  | GenOutcome.parseFailed => Except.ok none
  | GenOutcome.parsed qs =>
      Except.ok
        (if qs.length == 4 && qs.all (fun q => q.options.length == 4)
         then some qs else none)

/-- Crypto keywords of `deterministicFallback` (note: unlike the dispatch
regex, this list has no `bc1`/`0x`). -/
def fallbackCryptoKeys : List String :=
  ["btc", "eth", "usdt", "wallet", "address", "tx", "hash", "exchange",
   "crypto", "chain", "bridge", "mixer"]

/-- `deterministicFallback(query)`: a fixed crypto-aware or AML question
set keyed on the lowercased query. -/
def deterministicFallback (query : String) : List SimpleQuestion :=
  let q := strToLower query
  if fallbackCryptoKeys.any (fun k => strContains q k) then
    [⟨"Which crypto context best matches this case?",
      ["CEX withdrawal to new wallet", "P2P transfer between personal wallets",
       "Bridge/mixer interaction detected", "DeFi protocol cash-out"]⟩,
     ⟨"What identifiers can you provide?",
      ["Wallet address", "Transaction hash", "Exchange account ID",
       "No identifiers available"]⟩,
     ⟨"Is the value typical for this customer?",
      ["Yes, within historical range", "No, significantly higher",
       "No, significantly lower", "No history available"]⟩,
     ⟨"What is the stated purpose?",
      ["Business settlement", "Investment/Trading",
       "Personal transfer/remittance", "Unclear or inconsistent"]⟩]
  else
    [⟨"What type of suspicious activity is indicated?",
      ["Unusual patterns", "Jurisdictional risk", "Customer anomaly",
       "Documentation issues"]⟩,
     ⟨"Is the amount typical for this customer?",
      ["Yes, typical", "Higher than usual", "Lower than usual", "No history"]⟩,
     ⟨"Counterparty risk profile?",
      ["Known partner", "New entity", "High-risk entity", "Unclear"]⟩,
     ⟨"Geographic considerations?",
      ["Low-risk", "High-risk destination", "High-risk origin",
       "Multi-jurisdiction routing"]⟩]

/-- `generateQuestionsWithGemini`: dynamic result if available and valid,
deterministic fallback otherwise; any exception is caught into the
fallback. -/
def generateQuestionsWithGemini (o : GenOutcome) (prompt : String) :
    List SimpleQuestion :=
  match generateDynamicAMLQuestions o with
  | Except.error _ => deterministicFallback prompt
  | Except.ok d => d.getD (deterministicFallback prompt)

/-! ### Session creation (`src/web/src/app/api/follow-up/route.ts`) -/

/-- The request body of the follow-up route, as the zod schema
`z.object({ question: z.string().min(1) })` discriminates it. -/
inductive FollowUpBody where
  | notJson
  | noQuestionField
  | questionNotString
  | questionStr (q : String)

/-- The result of the follow-up route: a 400 on zod validation failure,
a 500 on any other exception, or a 200 with session id, questions and the
initial query. -/
inductive FollowUpResult where
  | validationError400
  | serverError500
  | ok (sessionId : String) (questions : List SimpleQuestion)
      (initialQuery : String)
deriving DecidableEq, Repr

/-- The follow-up route `POST` handler: `request.json()` failure is not a
`ZodError` and yields 500; a missing/non-string/empty `question` fails the
zod parse and yields 400; otherwise a session id `aml_${Date.now()}` and
the generated questions are returned. -/
def followUpPOST (body : FollowUpBody) (o : GenOutcome) (now : Nat) :
    FollowUpResult :=
  match body with
  | FollowUpBody.notJson => FollowUpResult.serverError500
  | FollowUpBody.noQuestionField => FollowUpResult.validationError400
  | FollowUpBody.questionNotString => FollowUpResult.validationError400
  | FollowUpBody.questionStr q =>
      if q.length < 1 then FollowUpResult.validationError400
      else
        FollowUpResult.ok ("aml_" ++ toString now)
          (generateQuestionsWithGemini o q) q

/-! ### Risk aggregation (spec-modelled)

The weighted risk aggregation and recommendation engine is part of this
repository's investigation flow but is not present as code under `src/`
(only its outputs appear, in the analysis reports); the definitions below
are therefore modelled from the spec. -/

/-- Recommendation enum of the aggregation model. -/
inductive Recommendation where
  | file
  | monitor
  | clear
deriving DecidableEq, Repr

/-- Confidence level enum of the aggregation model. -/
inductive ConfLevel where
  | low
  | medium
  | high
deriving DecidableEq, Repr

/-- Modelled from the spec: missing from `src/` is the Risk Aggregator's
recommendation function; per §4.5, overall ≥ 75 → `file`,
40 ≤ overall < 75 → `monitor`, overall < 40 → `clear`. -/
def recommendation (overall : ℚ) : Recommendation :=
  if 75 ≤ overall then Recommendation.file
  else if 40 ≤ overall then Recommendation.monitor
  else Recommendation.clear

/-- Modelled from the spec: missing from `src/` is the Risk Aggregator's
overall score; per §4.5, the weight-sum Σ(categoryScore × categoryWeight)
clamped to [0, 100]. -/
def overallScore (scores weights : List ℚ) : ℚ :=
  min 100 (max 0 (((scores.zip weights).map (fun p => p.1 * p.2)).sum))

/-- Modelled from the spec: missing from `src/` is the confidence level;
per §4.5, confidence = succeeded / dispatched, reported Low (< 50%),
Medium (50–89%), High (≥ 90%). -/
def confLevel (succeeded dispatched : Nat) : ConfLevel :=
  let c : ℚ := (succeeded : ℚ) / (dispatched : ℚ)
  if 9/10 ≤ c then ConfLevel.high
  else if 1/2 ≤ c then ConfLevel.medium
  else ConfLevel.low

/-- Does the delivered stream end with (and only with) a terminal event:
nonempty, every event before the last is non-terminal, and the last event
is terminal (the stream is closed immediately after it)? -/
def closesOnTerminal : List Event → Bool
  | [] => false
  | [e] => isTerminalEvt e
  | e :: rest => !isTerminalEvt e && closesOnTerminal rest

/-! ## Helper lemmas -/

theorem string_length_eq_zero {s : String} : s.length = 0 ↔ s = "" := by
  cases s with
  | mk data => simp [String.length, List.length_eq_zero, String.ext_iff]

theorem length_append_str (a b : String) :
    (a ++ b).length = a.length + b.length :=
  String.length_append a b

/-- The opening status message of the investigate-context route is never
the completion message, whatever the query. -/
theorem startCtxMsg_ne (q : String) :
    (("Starting investigation: " ++ q) == "Investigation complete") = false := by
  refine beq_eq_false_iff_ne.mpr ?_
  intro h
  have hl := congrArg String.length h
  rw [length_append_str] at hl
  have h1 : ("Starting investigation: ").length = 24 := rfl
  have h2 : ("Investigation complete").length = 22 := rfl
  omega

/-- The opening status message of the investigate route is never the
completion message, whatever the transaction count. -/
theorem startTxMsg_ne (n : Nat) :
    (("Starting investigation on " ++ toString n ++ " transactions")
      == "Investigation complete") = false := by
  refine beq_eq_false_iff_ne.mpr ?_
  intro h
  have hl := congrArg String.length h
  rw [length_append_str, length_append_str] at hl
  have h1 : ("Starting investigation on ").length = 26 := rfl
  have h2 : (" transactions").length = 13 := rfl
  have h3 : ("Investigation complete").length = 22 := rfl
  omega

theorem spawnedType_statusEvt (m : String) : spawnedType (statusEvt m) = none := rfl

theorem spawnedType_spawnEvt (t : String) : spawnedType (spawnEvt t) = some t := rfl

theorem spawnedType_updEvt (i s : String) (f : List String) :
    spawnedType (updEvt i s f) = none := rfl

theorem spawnedType_updRiskEvt (i s : String) (f : List String) (r : String) :
    spawnedType (updRiskEvt i s f r) = none := rfl

theorem isTerminal_statusEvt (m : String) :
    isTerminalEvt (statusEvt m) = (m == "Investigation complete") := rfl

theorem isTerminal_spawnEvt (t : String) : isTerminalEvt (spawnEvt t) = false := rfl

theorem isTerminal_updEvt (i s : String) (f : List String) :
    isTerminalEvt (updEvt i s f) = false := rfl

theorem isTerminal_updRiskEvt (i s : String) (f : List String) (r : String) :
    isTerminalEvt (updRiskEvt i s f r) = false := rfl

theorem isTerminal_completeEvt : isTerminalEvt completeEvt = true := rfl

theorem hasNum_statusEvt (m : String) : hasNumField (statusEvt m) = false := rfl

theorem hasNum_spawnEvt (t : String) : hasNumField (spawnEvt t) = false := rfl

theorem hasNum_updEvt (i s : String) (f : List String) :
    hasNumField (updEvt i s f) = false := rfl

theorem hasNum_updRiskEvt (i s : String) (f : List String) (r : String) :
    hasNumField (updRiskEvt i s f r) = false := rfl

theorem matchesAny_of_mem {text k : String} {keys : List String}
    (hk : k ∈ keys) (hc : strContains text k = true) :
    matchesAny text keys = true := by
  simp [matchesAny, List.any_eq_true]
  exact ⟨k, hk, hc⟩

/-- The set of agent kinds spawned by the context cascade is exactly the
pure dispatch decision on the session text, whatever the call time. -/
theorem spawnedKinds_contextTimed (t0 : Nat) (q : String) (a : List String) :
    spawnedKinds ((contextTimed t0 q a).map Prod.snd)
      = (decide (sessionText q a)).map Kind.agentType := by
  rcases ho : wantOsint (sessionText q a) <;> rcases hg : wantGeo (sessionText q a) <;>
  rcases hp : wantPattern (sessionText q a) <;> rcases hcn : wantChain (sessionText q a) <;>
  simp [spawnedKinds, contextTimed, decide, ho, hg, hp, hcn, Kind.agentType, completeEvt,
    spawnedType_statusEvt, spawnedType_spawnEvt, spawnedType_updEvt, spawnedType_updRiskEvt]

/-- Question generation always yields 4 questions of 4 options each, for
every collaborator outcome and prompt. -/
theorem gen_questions_4x4 (o : GenOutcome) (prompt : String) :
    (generateQuestionsWithGemini o prompt).length = 4 ∧
    (generateQuestionsWithGemini o prompt).all
      (fun sq => sq.options.length == 4) = true := by
  have hfb : ∀ p : String, (deterministicFallback p).length = 4 ∧
      (deterministicFallback p).all (fun sq => sq.options.length == 4) = true := by
    intro p
    rcases h : fallbackCryptoKeys.any (fun k => strContains (strToLower p) k) <;>
      simp [deterministicFallback, h]
  cases o with
  | unavailable =>
      simpa [generateQuestionsWithGemini, generateDynamicAMLQuestions] using hfb prompt
  | threw =>
      simpa [generateQuestionsWithGemini, generateDynamicAMLQuestions] using hfb prompt
  | noJsonMatch =>
      simpa [generateQuestionsWithGemini, generateDynamicAMLQuestions] using hfb prompt
  | parseFailed =>
      simpa [generateQuestionsWithGemini, generateDynamicAMLQuestions] using hfb prompt
  | parsed qs =>
      rcases hg : qs.length == 4 && qs.all (fun sq => sq.options.length == 4) with _ | _
      · simpa [generateQuestionsWithGemini, generateDynamicAMLQuestions, hg] using hfb prompt
      · have h1 : qs.length = 4 := by
          have := (Bool.and_eq_true _ _).mp hg
          exact beq_iff_eq.mp this.1
        have h2 : qs.all (fun sq => sq.options.length == 4) = true :=
          ((Bool.and_eq_true _ _).mp hg).2
        simp [generateQuestionsWithGemini, generateDynamicAMLQuestions, hg, h1, h2]

/-! ## Claim theorems -/

/-- C1: the claim states that whenever none of the four lexical signal
groups matches the session text, the dispatch decision selects exactly the
default `{transaction-pattern}` set.  False on the code: for the empty
session text no group matches, yet the decision is the empty set — not
`[Kind.pattern]` — and the event cascade spawns no agent at all. -/
theorem C1_default_dispatch_counterexample :
    (wantOsint (sessionText "" []) = false ∧ wantGeo (sessionText "" []) = false ∧
     wantPattern (sessionText "" []) = false ∧ wantChain (sessionText "" []) = false) ∧
    decide (sessionText "" []) ≠ [Kind.pattern] ∧
    spawnedKinds (contextEvents "" []) = [] := by decide

/-- C1 (amended): when none of the specialist kinds' signal groups match
the session text, the dispatch decision is the empty set and no
`spawn_agent` event is emitted — there is no default minimal set. -/
theorem C1_no_default_dispatch (q : String) (a : List String)
    (ho : wantOsint (sessionText q a) = false)
    (hg : wantGeo (sessionText q a) = false)
    (hp : wantPattern (sessionText q a) = false)
    (hc : wantChain (sessionText q a) = false) :
    decide (sessionText q a) = [] ∧ spawnedKinds (contextEvents q a) = [] := by
  refine ⟨by simp [decide, ho, hg, hp, hc], ?_⟩
  simp [spawnedKinds, contextEvents, contextTimed, ho, hg, hp, hc, completeEvt,
    spawnedType_statusEvt, spawnedType_updEvt, spawnedType_updRiskEvt]

/-- Witness for C1 (amended) at the empty session text. -/
theorem C1_no_default_dispatch_witness :
    wantOsint (sessionText "" []) = false ∧
    (decide (sessionText "" []) = [] ∧ spawnedKinds (contextEvents "" []) = []) :=
  ⟨by decide, C1_no_default_dispatch "" [] (by decide) (by decide) (by decide) (by decide)⟩

/-- C2: the claim states that a session text containing a jurisdiction
term and a wallet-address term yields a dispatch set ⊇
`{geographic-routing, chain-tracing, transaction-pattern}`.  False on the
code: for the text "jurisdiction wallet" both terms are present, yet
`transaction-pattern` is not selected (only a pattern-group term selects
it; there is no default). -/
theorem C2_superset_counterexample :
    strContains (sessionText "jurisdiction wallet" []) "jurisdiction" = true ∧
    strContains (sessionText "jurisdiction wallet" []) "wallet" = true ∧
    Kind.pattern ∉ decide (sessionText "jurisdiction wallet" []) := by decide

/-- C2 (amended): for every session text containing the jurisdiction term
and the wallet term, the dispatch decision includes geographic-routing and
chain-tracing; transaction-pattern is not implied. -/
theorem C2_geo_chain_dispatch (q : String) (a : List String)
    (hj : strContains (sessionText q a) "jurisdiction" = true)
    (hw : strContains (sessionText q a) "wallet" = true) :
    Kind.geo ∈ decide (sessionText q a) ∧ Kind.chain ∈ decide (sessionText q a) := by
  have hg : wantGeo (sessionText q a) = true := matchesAny_of_mem (by decide) hj
  have hc : wantChain (sessionText q a) = true := matchesAny_of_mem (by decide) hw
  constructor <;> simp [decide, hg, hc]

/-- Witness for C2 (amended) at the text "jurisdiction wallet". -/
theorem C2_geo_chain_dispatch_witness :
    Kind.geo ∈ decide (sessionText "jurisdiction wallet" []) ∧
    Kind.chain ∈ decide (sessionText "jurisdiction wallet" []) :=
  C2_geo_chain_dispatch "jurisdiction wallet" [] (by decide) (by decide)

/-- C3: the recommendation derived from an overall risk score satisfies
the exact threshold boundaries: 75.0 → `file`, 74.999 → `monitor`,
40.0 → `monitor`, 39.999 → `clear`. -/
theorem C3_recommendation_thresholds :
    recommendation 75 = Recommendation.file ∧
    recommendation (74999 / 1000) = Recommendation.monitor ∧
    recommendation 40 = Recommendation.monitor ∧
    recommendation (39999 / 1000) = Recommendation.clear := by
  refine ⟨?_, ?_, ?_, ?_⟩ <;> norm_num [recommendation]

/-- C4: for every request to either SSE route, the delivered event stream
ends with a terminal (`complete`/`errored`) event: the stream is nonempty,
its last event is the terminal completion event after which the controller
is closed, and no earlier event is terminal — so the stream closes exactly
when the terminal event is delivered. -/
theorem C4_stream_closes_on_terminal (q : String) (a : List String)
    (txs : List String) :
    closesOnTerminal (contextEvents q a) = true ∧
    closesOnTerminal (investigateEvents txs) = true := by
  constructor
  · rcases ho : wantOsint (sessionText q a) <;> rcases hg : wantGeo (sessionText q a) <;>
    rcases hp : wantPattern (sessionText q a) <;> rcases hcn : wantChain (sessionText q a) <;>
    simp [contextEvents, contextTimed, closesOnTerminal, ho, hg, hp, hcn, completeEvt,
      isTerminal_statusEvt, isTerminal_spawnEvt, isTerminal_updEvt, isTerminal_updRiskEvt,
      startCtxMsg_ne q]
  · rcases hch : cryptoHint txs <;>
    simp [investigateEvents, investigateTimed, closesOnTerminal, hch, completeEvt,
      isTerminal_statusEvt, isTerminal_spawnEvt, isTerminal_updEvt, isTerminal_updRiskEvt,
      startTxMsg_ne]

/-- C5: the dispatch decision is a deterministic pure function of the
session text: the set of agent kinds spawned by the route is the same for
any two call times and equals the pure `decide` of the session text,
independent of call order or time. -/
theorem C5_dispatch_deterministic (t0 t1 : Nat) (q : String) (a : List String) :
    spawnedKinds ((contextTimed t0 q a).map Prod.snd)
      = spawnedKinds ((contextTimed t1 q a).map Prod.snd) ∧
    spawnedKinds (contextEvents q a) = (decide (sessionText q a)).map Kind.agentType :=
  ⟨(spawnedKinds_contextTimed t0 q a).trans (spawnedKinds_contextTimed t1 q a).symm,
   spawnedKinds_contextTimed 0 q a⟩

/-- C6: question generation returns exactly 4 questions of exactly 4
options each, for every collaborator outcome (unavailable, throwing, or
returning malformed output) and every prompt: the deterministic fallback
covers every failure, so question generation never fails. -/
theorem C6_questions_always_4x4 (o : GenOutcome) (prompt : String) :
    (generateQuestionsWithGemini o prompt).length = 4 ∧
    (generateQuestionsWithGemini o prompt).all
      (fun sq => sq.options.length == 4) = true :=
  gen_questions_4x4 o prompt

/-- C7: session creation fails with a validation error iff the query is
empty: a request whose query text is empty is rejected with the 400
validation result and no session is produced, and every non-empty query
yields a session id with a 4-question list. -/
theorem C7_create_session_validation (q : String) (o : GenOutcome) (now : Nat) :
    (followUpPOST (FollowUpBody.questionStr q) o now
        = FollowUpResult.validationError400 ↔ q = "") ∧
    (q ≠ "" →
      followUpPOST (FollowUpBody.questionStr q) o now
          = FollowUpResult.ok ("aml_" ++ toString now)
              (generateQuestionsWithGemini o q) q ∧
      (generateQuestionsWithGemini o q).length = 4) := by
  have hlen : q.length < 1 ↔ q = "" := by
    rw [Nat.lt_one_iff]; exact string_length_eq_zero
  constructor
  · constructor
    · intro h
      by_contra hne
      have hnl : ¬ q.length < 1 := fun hl => hne (hlen.mp hl)
      simp [followUpPOST, hnl] at h
    · intro h
      subst h
      simp [followUpPOST]
  · intro hne
    have hnl : ¬ q.length < 1 := fun hl => hne (hlen.mp hl)
    simp [followUpPOST, hnl]
    exact (gen_questions_4x4 o q).1

/-- Witness for C7: the empty query is rejected, the query "x" succeeds. -/
theorem C7_create_session_validation_witness :
    (followUpPOST (FollowUpBody.questionStr "") GenOutcome.unavailable 0
        = FollowUpResult.validationError400) ∧
    (followUpPOST (FollowUpBody.questionStr "x") GenOutcome.unavailable 0
        = FollowUpResult.ok ("aml_" ++ toString 0)
            (generateQuestionsWithGemini GenOutcome.unavailable "x") "x" ∧
     (generateQuestionsWithGemini GenOutcome.unavailable "x").length = 4) :=
  ⟨(C7_create_session_validation "" GenOutcome.unavailable 0).1.mpr rfl,
   (C7_create_session_validation "x" GenOutcome.unavailable 0).2 (by decide)⟩

/-- C8: with sub-scores [90, 90, 90, 85] on four categories each weighted
0.25, the clamped weight-sum overall score is exactly 88.75, the
recommendation is `file`, and 4 of 4 succeeded tasks give High
confidence. -/
theorem C8_scenario_b :
    overallScore [90, 90, 90, 85] [1/4, 1/4, 1/4, 1/4] = 8875 / 100 ∧
    recommendation (overallScore [90, 90, 90, 85] [1/4, 1/4, 1/4, 1/4])
      = Recommendation.file ∧
    confLevel 4 4 = ConfLevel.high := by
  have h : overallScore [90, 90, 90, 85] [1/4, 1/4, 1/4, 1/4] = 8875 / 100 := by
    norm_num [overallScore]
  refine ⟨h, ?_, by norm_num [confLevel]⟩
  rw [h]
  norm_num [recommendation]

/-- C9: the claim states every emitted event carries a per-session
monotonically increasing sequence number.  False on the code: the
investigate stream for the empty transaction list delivers more than two
events and none of them carries any numeric field at all, so no event
carries a sequence number. -/
theorem C9_seq_number_counterexample :
    (¬ ∀ e ∈ investigateEvents [], hasNumField e = true) ∧
    2 ≤ (investigateEvents []).length := by decide

/-- C9 (amended): events carry no sequence-number field (no numeric field
at all); the per-session total order is instead given by delivery over the
single stream, whose scheduled fire times are strictly increasing with the
terminal event last — so any subscriber observes the events in a strict
total order with no gaps. -/
theorem C9_ordered_delivery (t0 : Nat) (txs : List String) (q : String)
    (a : List String) :
    List.Chain' (· < ·) ((investigateTimed t0 txs).map Prod.fst) ∧
    List.Chain' (· < ·) ((contextTimed t0 q a).map Prod.fst) ∧
    ((investigateTimed t0 txs).map Prod.snd).all (fun e => !hasNumField e) = true ∧
    ((contextTimed t0 q a).map Prod.snd).all (fun e => !hasNumField e) = true := by
  refine ⟨?_, ?_, ?_, ?_⟩
  · rcases hch : cryptoHint txs <;>
    simp [investigateTimed, hch, List.chain'_cons]
  · rcases ho : wantOsint (sessionText q a) <;> rcases hg : wantGeo (sessionText q a) <;>
    rcases hp : wantPattern (sessionText q a) <;> rcases hcn : wantChain (sessionText q a) <;>
    simp [contextTimed, ho, hg, hp, hcn, List.chain'_cons]
  · rcases hch : cryptoHint txs <;>
    simp [investigateTimed, hch, completeEvt, hasNum_statusEvt, hasNum_spawnEvt,
      hasNum_updEvt, hasNum_updRiskEvt]
  · rcases ho : wantOsint (sessionText q a) <;> rcases hg : wantGeo (sessionText q a) <;>
    rcases hp : wantPattern (sessionText q a) <;> rcases hcn : wantChain (sessionText q a) <;>
    simp [contextTimed, ho, hg, hp, hcn, completeEvt, hasNum_statusEvt, hasNum_spawnEvt,
      hasNum_updEvt, hasNum_updRiskEvt]

/-- C10: an unparseable request body is not rejected: the investigate
route treats it as the empty transaction list and the investigate-context
route as the empty context, and each still returns a successful event
stream that starts with the kickoff status event and ends with the
completion event. -/
theorem C10_unparseable_body_defaults :
    investigatePOST (Except.error ()) = SseResponse.stream (investigateTimed 0 []) ∧
    investigateContextPOST (Except.error ())
      = SseResponse.stream (contextTimed 0 "" []) ∧
    (investigateEvents []).head?
      = some (statusEvt ("Starting investigation on " ++ toString (0 : Nat)
          ++ " transactions")) ∧
    (contextEvents "" []).head? = some (statusEvt "Starting investigation: ") ∧
    closesOnTerminal (investigateEvents []) = true ∧
    closesOnTerminal (contextEvents "" []) = true := by
  refine ⟨rfl, rfl, ?_, ?_, ?_, ?_⟩ <;> decide

end FlagFlow
